import Mathlib

/-!
Verification of the log data-warehouse pipeline: the format parsers and the
schema normalizer in `logs.py`, and the filter/query construction layer in
`dash.py`.  Python lists become Lean `List`s, dicts (iterated in insertion
order) become association lists, pandas `DataFrame`s become a `Frame` of
column names plus rows of string cells, exceptions become `Except String`,
and the SQLite store becomes a finite map from table names to table values
updated with replace semantics.
-/

namespace DW

/-- Python `str.strip()` / whitespace trimming applied to log lines before
matching (modelled over ASCII whitespace, which is all that appears here). -/
def pyStrip (s : String) : String :=
  String.mk (((s.data.dropWhile Char.isWhitespace).reverse.dropWhile Char.isWhitespace).reverse)

/-- Core of Python `str.split(maxsplit=n)`: leading whitespace is skipped; once
the split budget `n` is exhausted the remainder (leading whitespace stripped)
is kept verbatim as the final token. -/
def pySplitCore : Nat → List Char → List String
  | 0, cs =>
    if (cs.dropWhile Char.isWhitespace).isEmpty then []
    else [String.mk (cs.dropWhile Char.isWhitespace)]
  | Nat.succ m, cs =>
    if (cs.dropWhile Char.isWhitespace).isEmpty then []
    else
      String.mk ((cs.dropWhile Char.isWhitespace).takeWhile fun c => !c.isWhitespace) ::
        pySplitCore m ((cs.dropWhile Char.isWhitespace).dropWhile fun c => !c.isWhitespace)

/-- Python `s.split(maxsplit=n)`. -/
def pySplit (n : Nat) (s : String) : List String :=
  pySplitCore n s.data

/-- Python `str.lower()` (ASCII). -/
def pyLower (s : String) : String := String.mk (s.data.map Char.toLower)

/-- `df.insert(0, "LineId", range(1, len(df)+1))`: pair each row with its
1-based position. -/
def insertLineId {α : Type} (rows : List α) : List (Nat × α) :=
  (List.range' 1 rows.length).zip rows

/-- The `LineId` column of a table built by `insertLineId`. -/
def lineIds {α : Type} (t : List (Nat × α)) : List Nat :=
  t.map Prod.fst

/-! ## dash.py — filter query builder -/

/-- The clause text appended for one constrained column:
`f"LOWER({col}) IN ({placeholders})"` with `placeholders` a comma-joined `?`
per value. -/
def clauseFor (p : String × List String) : String :=
  "LOWER(" ++ p.1 ++ ") IN (" ++
    String.intercalate "," (List.replicate p.2.length "?") ++ ")"

/-- One iteration of the loop in `build_where_clause`: skip a falsy (empty)
value list, otherwise append the column's clause and extend the bound
parameters with the lower-cased values. -/
def bwcStep (acc : List String × List String) (p : String × List String) :
    List String × List String :=
  if p.2.isEmpty then acc
  else (acc.1 ++ [clauseFor p], acc.2 ++ p.2.map pyLower)

/-- `build_where_clause(filters)` from `dash.py`: one loop over the filter
mapping, appending a `LOWER(col) IN (?,...)` clause and extending the bound
parameters with the lower-cased values whenever the value list is truthy
(non-empty); finally the clauses are joined with AND after `" WHERE "`, or the
empty string when no clause was produced. -/
def build_where_clause (filters : List (String × List String)) : String × List String :=
  (if (filters.foldl bwcStep ([], [])).1.isEmpty then ""
   else " WHERE " ++ String.intercalate " AND " (filters.foldl bwcStep ([], [])).1,
   (filters.foldl bwcStep ([], [])).2)

/-- `f"LIMIT {limit}" if limit else ""` from `load_filtered_data`: Python
truthiness makes both `None` and `0` produce the empty clause. -/
def limit_clause : Option Int → String
  | none => ""
  | some n => if n = 0 then "" else "LIMIT " ++ toString n

/-- Query construction of `load_filtered_data(conn, table, filters, limit)`:
the SQL text (with the table name and limit interpolated, the filter values
bound) and the parameter list.  The default limit argument is `some 500000`. -/
def load_filtered_data_query (table : String) (filters : List (String × List String))
    (limit : Option Int) : String × List String :=
  let wp := build_where_clause filters
  ("SELECT * FROM " ++ table ++ " " ++ wp.1 ++ " " ++ limit_clause limit ++ ";", wp.2)

/-! ## logs.py — format parsers

The regular expressions used by the console (Mac) and mobile (Android) and
distributed-service (OpenStack) parsers are modelled as abstract matching
functions `String → Option row`: `re.match` either yields a row of captured
groups or `None`, and no claim below depends on the language a particular
pattern accepts — only on how the parser treats matched and unmatched lines.
A missing input file (Python `open` raising `FileNotFoundError`) is modelled
as the `none` input. -/

/-- The row list built by `parse_mac_log`: strip each line, keep the captured
groups of the lines the pattern matches, in file order. -/
def macRows {μ : Type} (matchLine : String → Option μ) (lines : List String) : List μ :=
  lines.filterMap fun l => matchLine (pyStrip l)

/-- `parse_mac_log(file_path)`: fails only when the file cannot be opened;
otherwise matched lines become rows and unmatched lines are skipped. -/
def parse_mac_log {μ : Type} (matchLine : String → Option μ)
    (file : Option (List String)) : Except String (List μ) :=
  match file with
  | none => .error "FileNotFoundError"
  | some lines => .ok (macRows matchLine lines)

/-- The row list built by `parse_android_log` (same strip/match/skip loop as
the Mac parser, with the Android pattern). -/
def androidRows {ν : Type} (matchLine : String → Option ν) (lines : List String) : List ν :=
  lines.filterMap fun l => matchLine (pyStrip l)

/-- `parse_android_log(file_path)`: fails only when the file cannot be
opened; otherwise matched lines become rows and unmatched lines are skipped. -/
def parse_android_log {ν : Type} (matchLine : String → Option ν)
    (file : Option (List String)) : Except String (List ν) :=
  match file with
  | none => .error "FileNotFoundError"
  | some lines => .ok (androidRows matchLine lines)

/-- `load_openstack_logs(file_paths)`: rows accumulated across all files in
input order, then `LineId` inserted as `range(1, len(df)+1)` after
concatenation. -/
def load_openstack_logs {ρ : Type} (matchLine : String → Option ρ)
    (files : List (List String)) : List (Nat × ρ) :=
  insertLineId (files.flatMap fun lines => lines.filterMap fun l => matchLine (pyStrip l))

/-- The `mac` branch of `load_dataset_to_sqlite`: parse, then insert `LineId`. -/
def load_mac {μ : Type} (matchLine : String → Option μ) (lines : List String) :
    List (Nat × μ) :=
  insertLineId (macRows matchLine lines)

/-- The `android_v1` branch of `load_dataset_to_sqlite`: parse, then insert
`LineId`. -/
def load_android {ν : Type} (matchLine : String → Option ν) (lines : List String) :
    List (Nat × ν) :=
  insertLineId (androidRows matchLine lines)

/-- The row list of the `openssh` branch: each stripped line is split into at
most 6 whitespace tokens (`split(maxsplit=5)`) and kept exactly when the
split yields 6 parts. -/
def opensshRows (lines : List String) : List (List String) :=
  (lines.map fun l => pySplit 5 (pyStrip l)).filter fun parts => parts.length == 6

/-- The `openssh` branch of `load_dataset_to_sqlite`: kept rows with `LineId`
inserted. -/
def load_openssh (lines : List String) : List (Nat × List String) :=
  insertLineId (opensshRows lines)

instance instDecEqExcept {ε α : Type} [DecidableEq ε] [DecidableEq α] :
    DecidableEq (Except ε α) := fun a b =>
  match a, b with
  | .error x, .error y =>
      if h : x = y then .isTrue (by rw [h]) else .isFalse (by simp [h])
  | .error _, .ok _ => .isFalse (by simp)
  | .ok _, .error _ => .isFalse (by simp)
  | .ok x, .ok y =>
      if h : x = y then .isTrue (by rw [h]) else .isFalse (by simp [h])

/-- One element of the BGL content pass: `line.strip().split(maxsplit=9)[-1]`.
On a line that strips to nothing the split is empty and the `[-1]` indexing
raises `IndexError`. -/
def bglContent (line : String) : Except String String :=
  match (pySplit 9 (pyStrip line)).getLast? with
  | some s => .ok s
  | none => .error "IndexError: list index out of range"

/-- The BGL content pass over the whole file, stopping at the first failing
line as the Python list comprehension does. -/
def bglContents : List String → Except String (List String)
  | [] => .ok []
  | l :: ls =>
      match bglContent l with
      | .error e => .error e
      | .ok c =>
          match bglContents ls with
          | .error e => .error e
          | .ok cs => .ok (c :: cs)

/-- The `bgl` branch of `load_dataset_to_sqlite`.  The structured pass
(pandas `read_csv` of the 9 leading whitespace-separated fields with
malformed rows skipped) is abstracted as the row list `structRows` it
yields; the claims below depend only on its row count.  The assignment
`df["Content"] = contents` carries the pandas length check: assigning a list
whose length differs from the frame's raises
`ValueError: Length of values does not match length of index`, which the
loader's `except` clause surfaces as that source's failure. -/
def load_bgl {σ : Type} (structRows : List σ) (lines : List String) :
    Except String (List (Nat × σ × String)) :=
  match bglContents lines with
  | .error e => .error e
  | .ok contents =>
      if structRows.length = contents.length then
        .ok (insertLineId (structRows.zip contents))
      else
        .error "ValueError: Length of values does not match length of index"

/-! ## logs.py — schema normalizer -/

/-- A pandas `DataFrame` of string cells: column names plus rows aligned with
the columns. -/
structure Frame where
  cols : List String
  rows : List (List String)
deriving DecidableEq, Repr

/-- `df[name] = vals`: overwrite the column in place when it exists, else
append it as the last column. -/
def setCol (f : Frame) (name : String) (vals : List String) : Frame :=
  if name ∈ f.cols then
    ⟨f.cols, (f.rows.zip vals).map fun rv => rv.1.set (f.cols.indexOf name) rv.2⟩
  else
    ⟨f.cols ++ [name], (f.rows.zip vals).map fun rv => rv.1 ++ [rv.2]⟩

/-- The values of one column of a frame (cells read by column position). -/
def getColVals (f : Frame) (name : String) : List String :=
  f.rows.map fun r => r.getD (f.cols.indexOf name) ""

/-- `df.astype(str).agg(" ".join, axis=1)` on one row: all field values,
space-joined, in field (column) order. -/
def joinRow (r : List String) : String := String.intercalate " " r

/-- The unified record shape produced by `standardize`: columns
`LineId, Content, EventId, EventTemplate, Source`. -/
structure NormRow where
  lineId : Nat
  content : String
  eventId : Option String
  eventTemplate : Option String
  source : String
deriving DecidableEq, Repr

/-- Build the normalized table from the designated column's values:
`LineId` as `range(1, len+1)`, `EventId`/`EventTemplate` set to `None`,
`Source` stamped. -/
def normTable (vals : List String) (source : String) : List NormRow :=
  (insertLineId vals).map fun p => ⟨p.1, p.2, none, none, source⟩

/-- `standardize(df, content_col, source)` from `logs.py`.  The first
component is the returned table (or the raised exception); the second is the
state of the *caller's* frame after the call: the fallback branch executes
`df["Content"] = df.astype(str).agg(" ".join, axis=1)` on the caller's object
before any copy is taken, while the other branch works on `df.copy()`.  The
subsequent `df[[content_col]]` selection raises `KeyError` when the
designated column is still absent (the fallback added a column named
`Content`, not `content_col`). -/
def standardize (df : Frame) (content_col : String) (source : String) :
    Except String (List NormRow) × Frame :=
  if content_col ∈ df.cols then
    (.ok (normTable (getColVals df content_col) source), df)
  else if content_col ∈ (setCol df "Content" (df.rows.map joinRow)).cols then
    (.ok (normTable (getColVals (setCol df "Content" (df.rows.map joinRow)) content_col) source),
     setCol df "Content" (df.rows.map joinRow))
  else
    (.error ("KeyError: " ++ content_col), setCol df "Content" (df.rows.map joinRow))

/-! ## logs.py — persistence -/

/-- `df.to_sql(table_name, conn, if_exists="replace")`: the store maps table
names to table values; the named table is dropped and recreated with exactly
the frame's rows. -/
def to_sql_replace {τ : Type} (store : String → Option τ) (tbl : String) (t : τ) :
    String → Option τ :=
  Function.update store tbl (some t)

/-- One source's pass of `load_dataset_to_sqlite`: run the source's parse
pipeline on its input and persist the result under `logs_<name>` with
replace semantics. -/
def load_dataset_to_sqlite {ι τ : Type} (parse : ι → τ) (name : String) (input : ι)
    (store : String → Option τ) : String → Option τ :=
  to_sql_replace store ("logs_" ++ name) (parse input)

/-! ## Helper lemmas -/

lemma insertLineId_map_fst {α : Type} (rows : List α) :
    (insertLineId rows).map Prod.fst = List.range' 1 rows.length :=
  List.map_fst_zip _ _ (by simp)

lemma insertLineId_length {α : Type} (rows : List α) :
    (insertLineId rows).length = rows.length := by
  simp [insertLineId]

lemma insertLineId_map_snd {α : Type} (rows : List α) :
    (insertLineId rows).map Prod.snd = rows :=
  List.map_snd_zip _ _ (by simp)

lemma lineIds_insertLineId {α : Type} (rows : List α) :
    lineIds (insertLineId rows) = List.range' 1 (insertLineId rows).length := by
  rw [lineIds, insertLineId_map_fst, insertLineId_length]

lemma normTable_lineId (vals : List String) (src : String) :
    (normTable vals src).map NormRow.lineId = List.range' 1 (normTable vals src).length := by
  have h1 : (normTable vals src).map NormRow.lineId = (insertLineId vals).map Prod.fst := by
    unfold normTable
    rw [List.map_map]
    rfl
  have h2 : (normTable vals src).length = vals.length := by
    simp [normTable, insertLineId_length]
  rw [h1, h2, insertLineId_map_fst]

lemma normTable_content (vals : List String) (src : String) :
    (normTable vals src).map NormRow.content = vals := by
  have h1 : (normTable vals src).map NormRow.content = (insertLineId vals).map Prod.snd := by
    unfold normTable
    rw [List.map_map]
    rfl
  rw [h1, insertLineId_map_snd]

lemma build_where_foldl (filters : List (String × List String)) (cs ps : List String) :
    filters.foldl bwcStep (cs, ps)
    = (cs ++ (filters.filter fun p => !p.2.isEmpty).map clauseFor,
       ps ++ filters.flatMap fun p => p.2.map pyLower) := by
  induction filters generalizing cs ps with
  | nil => simp
  | cons hd tl ih =>
      obtain ⟨c, vs⟩ := hd
      rw [List.foldl_cons]
      cases vs with
      | nil =>
          rw [show bwcStep (cs, ps) (c, []) = (cs, ps) from rfl, ih]
          simp
      | cons v vs' =>
          rw [show bwcStep (cs, ps) (c, v :: vs')
                = (cs ++ [clauseFor (c, v :: vs')], ps ++ (v :: vs').map pyLower) from rfl, ih]
          simp [List.append_assoc]

lemma pySplitCore_length_le (n : Nat) (cs : List Char) :
    (pySplitCore n cs).length ≤ n + 1 := by
  induction n generalizing cs with
  | zero =>
      unfold pySplitCore
      split <;> simp
  | succ m ih =>
      unfold pySplitCore
      split
      · simp
      · have := ih ((cs.dropWhile Char.isWhitespace).dropWhile fun c => !c.isWhitespace)
        simp only [List.length_cons]
        omega

/-! ## C1 — filter query builder emits one parameterized clause per
constrained column -/

/-- C1: `build_where_clause` binds one lower-cased parameter per value and
never puts a value in the query text; each non-empty column contributes a
`LOWER(col) IN (?,...)` clause (one `?` per value) and the clauses are joined
with AND; empty value lists contribute no clause and no parameters; the empty
FilterSpec produces no WHERE section; `{"team": ["RTL_TEAM"]}` binds exactly
the single parameter `"rtl_team"`. -/
theorem C1_filter_query_builder (filters : List (String × List String)) :
    (build_where_clause filters).2 = (filters.flatMap fun p => p.2.map pyLower)
  ∧ (build_where_clause filters).1 =
      (if (filters.filter fun p => !p.2.isEmpty) = [] then ""
       else " WHERE " ++
         String.intercalate " AND " ((filters.filter fun p => !p.2.isEmpty).map clauseFor))
  ∧ build_where_clause [] = ("", [])
  ∧ build_where_clause [("team", ["RTL_TEAM"])] = (" WHERE LOWER(team) IN (?)", ["rtl_team"]) := by
  refine ⟨?_, ?_, by decide, by decide⟩
  · show (build_where_clause filters).2 = _
    unfold build_where_clause
    rw [build_where_foldl]
    simp
  · show (build_where_clause filters).1 = _
    unfold build_where_clause
    rw [build_where_foldl]
    cases hl : List.filter (fun p => !p.2.isEmpty) filters with
    | nil => simp
    | cons a as => simp

/-! ## C3 — no fail-fast validation of filter columns -/

/-- C3: contrary to the specified fail-fast "invalid column" validation, the
query construction performs no schema check at all: a filter on a column
absent from the `logs_openssh` schema (`LineId, Date, Day, Time, Component,
Pid, Content`) still yields a well-formed query interpolating that column
name, leaving the failure to the engine at execution time. -/
theorem C3_no_column_validation :
    (["LineId", "Date", "Day", "Time", "Component", "Pid", "Content"].contains "bogus") = false
  ∧ load_filtered_data_query "logs_openssh" [("bogus", ["x"])] (some 500000)
      = ("SELECT * FROM logs_openssh  WHERE LOWER(bogus) IN (?) LIMIT 500000;", ["x"]) := by
  constructor
  · decide
  · decide

/-! ## C9 — row bound applied only when the limit argument is truthy -/

/-- C9: with the default limit the query text ends in `LIMIT 500000`; passing
`limit=0` produces exactly the same query as `limit=None`, with the LIMIT
clause absent; the emitted clause is either empty or `LIMIT n` with `n ≠ 0`,
so no query ever requests exactly zero rows; and any non-zero cap (including
1, a huge value, or a negative value) is interpolated without validation. -/
theorem C9_limit_truthiness (table : String) (filters : List (String × List String)) :
    (load_filtered_data_query table filters (some 500000)).1
      = "SELECT * FROM " ++ table ++ " " ++ (build_where_clause filters).1
          ++ " " ++ "LIMIT 500000" ++ ";"
  ∧ load_filtered_data_query table filters (some 0) = load_filtered_data_query table filters none
  ∧ (load_filtered_data_query table filters none).1
      = "SELECT * FROM " ++ table ++ " " ++ (build_where_clause filters).1 ++ " " ++ "" ++ ";"
  ∧ (∀ lim, limit_clause lim = ""
        ∨ ∃ n, lim = some n ∧ (n == 0) = false ∧ limit_clause lim = "LIMIT " ++ toString n)
  ∧ limit_clause (some 1) = "LIMIT 1"
  ∧ limit_clause (some (-5)) = "LIMIT -5"
  ∧ limit_clause (some 1000000000000) = "LIMIT 1000000000000" := by
  refine ⟨rfl, rfl, rfl, ?_, by decide, by decide, by decide⟩
  intro lim
  match lim with
  | none => exact Or.inl rfl
  | some n =>
      by_cases h : n = 0
      · subst h
        exact Or.inl rfl
      · refine Or.inr ⟨n, rfl, by simpa using h, ?_⟩
        simp [limit_clause, h]

/-! ## C6 — per-source ingestion persists with replace semantics and is
idempotent -/

/-- C6: persisting a source's parse result with `to_sql(..., if_exists=
"replace")` makes per-source ingestion idempotent — running it twice on the
same input leaves exactly the state of running it once — and the stored table
is exactly the parse result of the input, independent of whatever the store
previously held under that name (replace, never append or merge). -/
theorem C6_replace_idempotent {ι τ : Type} (parse : ι → τ) (name : String) (input : ι)
    (store : String → Option τ) :
    load_dataset_to_sqlite parse name input (load_dataset_to_sqlite parse name input store)
      = load_dataset_to_sqlite parse name input store
  ∧ load_dataset_to_sqlite parse name input store ("logs_" ++ name) = some (parse input) := by
  constructor
  · simp [load_dataset_to_sqlite, to_sql_replace]
  · simp [load_dataset_to_sqlite, to_sql_replace]

/-! ## C7 — console and mobile parsers skip malformed lines and only fail on
missing files -/

/-- C7: for any matching function and any open input file, `parse_mac_log`
and `parse_android_log` return a row list (never an error) whose length is at
most the number of input lines — unmatched lines are silently skipped — and
they propagate an error exactly when the input file cannot be opened. -/
theorem C7_parser_skip_totality {μ ν : Type} (mMac : String → Option μ)
    (mAnd : String → Option ν) (linesMac linesAnd : List String) :
    (∃ rows, parse_mac_log mMac (some linesMac) = .ok rows ∧ rows.length ≤ linesMac.length)
  ∧ (∃ rows, parse_android_log mAnd (some linesAnd) = .ok rows ∧ rows.length ≤ linesAnd.length)
  ∧ parse_mac_log mMac none = .error "FileNotFoundError"
  ∧ parse_android_log mAnd none = .error "FileNotFoundError" := by
  refine ⟨⟨_, rfl, ?_⟩, ⟨_, rfl, ?_⟩, rfl, rfl⟩
  · exact List.length_filterMap_le _ _
  · exact List.length_filterMap_le _ _

/-! ## C2 — LineId is 1..N, gapless, in input order, on every ingestion
path -/

/-- C2: every table produced by an ingestion path — distributed-service
(OpenStack), fixed-width (BGL), key-path (OpenSSH), console (Mac), mobile
(Android), and the normalizer — carries `LineId` values that are exactly
`1..N` in input order, where `N` is the number of successfully parsed
(non-skipped) rows of that table. -/
theorem C2_lineid_contiguous {μ ν ρ σ : Type} (mMac : String → Option μ)
    (mAnd : String → Option ν) (mOs : String → Option ρ)
    (linesMac linesAnd linesSsh linesBgl : List String) (filesOs : List (List String))
    (structRows : List σ) (df : Frame) (cc src : String) :
    lineIds (load_mac mMac linesMac) = List.range' 1 (load_mac mMac linesMac).length
  ∧ lineIds (load_android mAnd linesAnd) = List.range' 1 (load_android mAnd linesAnd).length
  ∧ lineIds (load_openstack_logs mOs filesOs)
      = List.range' 1 (load_openstack_logs mOs filesOs).length
  ∧ lineIds (load_openssh linesSsh) = List.range' 1 (load_openssh linesSsh).length
  ∧ (∀ t, load_bgl structRows linesBgl = .ok t → lineIds t = List.range' 1 t.length)
  ∧ (∀ out, (standardize df cc src).1 = .ok out →
        out.map NormRow.lineId = List.range' 1 out.length) := by
  refine ⟨lineIds_insertLineId _, lineIds_insertLineId _, lineIds_insertLineId _,
    lineIds_insertLineId _, ?_, ?_⟩
  · intro t h
    unfold load_bgl at h
    split at h
    · exact absurd h (by simp)
    · split at h
      · injection h with h1
        rw [← h1]
        exact lineIds_insertLineId _
      · exact absurd h (by simp)
  · intro out h
    unfold standardize at h
    split at h
    · simp only at h
      injection h with h1
      rw [← h1]
      exact normTable_lineId _ _
    · split at h
      · simp only at h
        injection h with h1
        rw [← h1]
        exact normTable_lineId _ _
      · exact absurd h (by simp)

/-- Witness for C2 at concrete inputs: a successful BGL load (one structured
row, one line) and a successful normalization both get `LineId` column
`[1]`. -/
theorem C2_lineid_contiguous_witness :
    lineIds [(1, (("L" : String), "b"))] = List.range' 1 [(1, (("L" : String), "b"))].length
  ∧ ([⟨1, "a b", none, none, "s"⟩] : List NormRow).map NormRow.lineId
      = List.range' 1 ([⟨1, "a b", none, none, "s"⟩] : List NormRow).length := by
  constructor
  · exact (C2_lineid_contiguous (fun _ => (none : Option String))
      (fun _ => (none : Option String)) (fun _ => (none : Option String))
      [] [] [] ["a b"] [] ["L"] ⟨[], []⟩ "c" "s").2.2.2.2.1 _ (by decide)
  · exact (C2_lineid_contiguous (fun _ => (none : Option String))
      (fun _ => (none : Option String)) (fun _ => (none : Option String))
      [] [] [] [] [] ([] : List String) ⟨["A", "B"], [["a", "b"]]⟩ "Content" "s").2.2.2.2.2
      _ (by decide)

/-! ## C4 — BGL two-pass row-count mismatch fails the source's run -/

/-- C4: whenever the BGL structured pass and the content pass disagree in row
count, the fixed-width load ends in an error (the pandas length check on
`df["Content"] = contents`, surfaced by the loader as that source's failure)
— it never truncates to the shorter sequence. -/
theorem C4_bgl_mismatch_error {σ : Type} (structRows : List σ) (lines : List String)
    (contents : List String) (hc : bglContents lines = .ok contents)
    (hne : structRows.length ≠ contents.length) :
    load_bgl structRows lines
      = .error "ValueError: Length of values does not match length of index" := by
  unfold load_bgl
  rw [hc]
  simp [hne]

/-- Witness for C4: an empty structured pass against a one-line content pass
fails with the length-mismatch error. -/
theorem C4_bgl_mismatch_error_witness :
    load_bgl ([] : List String) ["a"]
      = .error "ValueError: Length of values does not match length of index" :=
  C4_bgl_mismatch_error [] ["a"] ["a"] (by decide) (by decide)

/-! ## C5 — content fallback joins all field values (only for the designated
name `Content`) -/

lemma getColVals_setCol_fresh (f : Frame) (name : String) (g : List String → String)
    (h : name ∉ f.cols) (hrect : ∀ r ∈ f.rows, r.length = f.cols.length) :
    getColVals (setCol f name (f.rows.map g)) name = f.rows.map g := by
  unfold setCol getColVals
  rw [if_neg h]
  have hidx : (f.cols ++ [name]).indexOf name = f.cols.length := by
    rw [List.indexOf_append_of_not_mem h]
    simp
  have hzip : f.rows.zip (f.rows.map g) = f.rows.map fun r => (r, g r) := by
    simpa using List.zip_map' id g f.rows
  simp only [hidx, hzip, List.map_map]
  apply List.map_congr_left
  intro r hr
  simp only [Function.comp]
  rw [← hrect r hr]
  simp [List.getD_append_right]

/-- C5 counterexample: for the designated content field name `"Foo"` absent
from a two-column table, `standardize` does not produce a joined `Content` at
all — the fallback adds a column named `Content` and the subsequent selection
of `"Foo"` fails with a `KeyError`. -/
theorem C5_counterexample :
    (standardize ⟨["A", "B"], [["a", "b"]]⟩ "Foo" "unknown").1 = .error "KeyError: Foo" := by
  decide

/-- C5 (amended): when the designated content field name is `"Content"` (the
parser-facing default) and is absent from the table's columns, the normalizer
succeeds and each row's `Content` equals the space-joined concatenation of
all of that row's field values in field order; any other absent designated
name makes `standardize` fail instead. -/
theorem C5_content_fallback (df : Frame) (source : String)
    (habs : "Content" ∉ df.cols) (hrect : ∀ r ∈ df.rows, r.length = df.cols.length) :
    (standardize df "Content" source).1 = .ok (normTable (df.rows.map joinRow) source)
  ∧ (normTable (df.rows.map joinRow) source).map NormRow.content = df.rows.map joinRow := by
  constructor
  · have hmem : "Content" ∈ (setCol df "Content" (df.rows.map joinRow)).cols := by
      unfold setCol
      rw [if_neg habs]
      simp
    unfold standardize
    rw [if_neg habs, if_pos hmem, getColVals_setCol_fresh df "Content" joinRow habs hrect]
  · exact normTable_content _ _

/-- Witness for C5 (amended): a two-column table without a `Content` column
gets `Content = "a b"` for its single row. -/
theorem C5_content_fallback_witness :
    (standardize ⟨["A", "B"], [["a", "b"]]⟩ "Content" "s").1
      = .ok (normTable ([["a", "b"]].map joinRow) "s") :=
  (C5_content_fallback ⟨["A", "B"], [["a", "b"]]⟩ "s" (by decide) (by decide)).1

/-! ## C8 — key-path (openssh) tokenization keeps exactly-6-token lines -/

/-- C8: every line is split into at most 6 whitespace tokens
(`split(maxsplit=5)`); a line is kept exactly when the split yields 6 tokens
(so every kept row has width 6); and a 4-token line among otherwise 6-token
lines is dropped, making the row count exactly the line count minus 1. -/
theorem C8_openssh_tokenization (lines : List String) :
    (∀ s, (pySplit 5 s).length ≤ 6)
  ∧ (∀ l ls, opensshRows (l :: ls)
        = (if (pySplit 5 (pyStrip l)).length = 6 then [pySplit 5 (pyStrip l)] else [])
            ++ opensshRows ls)
  ∧ (∀ r ∈ opensshRows lines, r.length = 6)
  ∧ (∀ line pre post, (pySplit 5 (pyStrip line)).length = 4 →
      (∀ l ∈ pre ++ post, (pySplit 5 (pyStrip l)).length = 6) →
      (load_openssh (pre ++ line :: post)).length = (pre ++ line :: post).length - 1) := by
  refine ⟨fun s => pySplitCore_length_le 5 s.data, fun l ls => ?_, fun r hr => ?_, ?_⟩
  · unfold opensshRows
    rw [List.map_cons, List.filter_cons]
    by_cases h : (pySplit 5 (pyStrip l)).length = 6
    · simp [h]
    · simp [h]
  · unfold opensshRows at hr
    have := List.of_mem_filter hr
    simpa using this
  · intro line pre post h4 h6
    rw [load_openssh, insertLineId_length]
    unfold opensshRows
    rw [List.map_append, List.map_cons, List.filter_append, List.filter_cons]
    have hline : ((pySplit 5 (pyStrip line)).length == 6) = false := by
      simp [h4]
    rw [hline]
    have hpre : (pre.map fun l => pySplit 5 (pyStrip l)).filter
        (fun parts => parts.length == 6) = pre.map fun l => pySplit 5 (pyStrip l) := by
      rw [List.filter_eq_self]
      intro a ha
      obtain ⟨l, hl, rfl⟩ := List.mem_map.mp ha
      simp [h6 l (List.mem_append.mpr (Or.inl hl))]
    have hpost : (post.map fun l => pySplit 5 (pyStrip l)).filter
        (fun parts => parts.length == 6) = post.map fun l => pySplit 5 (pyStrip l) := by
      rw [List.filter_eq_self]
      intro a ha
      obtain ⟨l, hl, rfl⟩ := List.mem_map.mp ha
      simp [h6 l (List.mem_append.mpr (Or.inr hl))]
    rw [hpre, hpost]
    simp only [Bool.false_eq_true, if_false, List.length_append, List.length_map,
      List.length_cons]
    omega

/-- Witness for C8: the file `["a b c d e f", "a b c d"]` keeps only the
6-token line, one row fewer than the two input lines. -/
theorem C8_openssh_tokenization_witness :
    (pySplit 5 "a b").length ≤ 6
  ∧ (load_openssh ["a b c d e f", "a b c d"]).length
      = (["a b c d e f", "a b c d"]).length - 1 := by
  constructor
  · exact (C8_openssh_tokenization []).1 "a b"
  · exact (C8_openssh_tokenization []).2.2.2 "a b c d" ["a b c d e f"] [] (by decide)
      (by decide)

/-! ## C10 — the normalizer mutates its caller's frame on the fallback branch
only -/

/-- C10: when the designated content field is present, `standardize` works on
a copy and the caller's frame is unchanged; when it is absent, the fallback
writes a joined `Content` column into the caller's frame in place before
building the result (demonstrably changing it, as at the concrete one-column
input), so the input-unchanged frame property holds on one branch only. -/
theorem C10_standardize_frame (df : Frame) (cc src : String) :
    (cc ∈ df.cols → (standardize df cc src).2 = df)
  ∧ (cc ∉ df.cols → (standardize df cc src).2 = setCol df "Content" (df.rows.map joinRow))
  ∧ (standardize ⟨["A"], [["x"]]⟩ "Content" "s").2 ≠ (⟨["A"], [["x"]]⟩ : Frame) := by
  refine ⟨fun h => ?_, fun h => ?_, by decide⟩
  · unfold standardize
    rw [if_pos h]
  · unfold standardize
    rw [if_neg h]
    by_cases h2 : cc ∈ (setCol df "Content" (df.rows.map joinRow)).cols
    · rw [if_pos h2]
    · rw [if_neg h2]

/-- Witness for C10: with `Content` present the caller's frame is returned
unchanged; with it absent the caller's frame comes back with the in-place
`Content` column written. -/
theorem C10_standardize_frame_witness :
    (standardize ⟨["Content"], [["x"]]⟩ "Content" "s").2 = (⟨["Content"], [["x"]]⟩ : Frame)
  ∧ (standardize ⟨["A"], [["x"]]⟩ "Content" "s").2
      = setCol ⟨["A"], [["x"]]⟩ "Content" ([["x"]].map joinRow) :=
  ⟨(C10_standardize_frame ⟨["Content"], [["x"]]⟩ "Content" "s").1 (by decide),
   (C10_standardize_frame ⟨["A"], [["x"]]⟩ "Content" "s").2.1 (by decide)⟩

end DW
